import Mathlib

/-
Shallow embedding of mx.jvmci/mx_jvmci.py (graal-jvmci-8): the JDK
assembly and artifact-deployment engine.

Modelling conventions:
* POSIX absolute paths are modelled as lists of path components (the code
  works on strings produced by os.path.join; a component never contains a
  slash, so the component list determines the string and vice versa).
* File contents are lists of lines; a line is a String without its
  trailing newline (the code reads lines with the newline attached and
  writes them back unchanged, so working at line granularity is faithful).
* mtimes are naturals; mx.TimeStampFile.isNewerThan is strict comparison
  of mtimes.
* mx.abort and uncaught Python exceptions are modelled as Except.error.
-/

/-- Render a component path the way os.path.join renders it on POSIX. -/
def pathStr (p : List String) : String :=
  String.intercalate "/" p

/-- Component-path version of str.startswith, used by the assertion in
_vmbuildFromJdkDir (line 653). -/
def leadsWith : List String → List String → Bool
  | [], _ => true
  | _ :: _, [] => false
  | a :: as, b :: bs => a == b && leadsWith as bs

/-- Component-path version of the test path.endswith('/Contents/Home')
used at lines 521 and 654 (paths here are absolute, so the test holds
exactly when the last two components are Contents, Home). -/
def endsContentsHome (p : List String) : Bool :=
  match p.reverse with
  | h :: c :: _ => h == "Home" && c == "Contents"
  | _ => false

/-- Component-path version of path[:-len('/Contents/Home')] (lines 522-523,
655): strip the final two components. -/
def dropLast2 (p : List String) : List String :=
  p.take (p.length - 2)

/-- _vmbuildChoices (line 90): the VM builds, default is first in list. -/
def vmbuildChoices : List String :=
  ["product", "fastdebug", "debug", "optimized"]

/-- _jdkDir(jdks, build) (lines 477-481): on a Mac the JDK tree nests
under build/Contents/Home, otherwise it is jdks/build. -/
def mkJdkDir (jdks : List String) (build : String) (mac : Bool) : List String :=
  if mac then jdks ++ [build, "Contents", "Home"] else jdks ++ [build]

/-- _vmbuildFromJdkDir(jdkDir) (lines 648-660): assert jdkDir starts with
jdksDir, strip a trailing /Contents/Home, take the relative path and
assert it is one of _vmbuildChoices.  Assertion failures are modelled as
none. -/
def vmbuildFromJdkDir (jdksDir jdkDir : List String) : Option String :=
  if leadsWith jdksDir jdkDir = true then
    match (if endsContentsHome jdkDir = true then dropLast2 jdkDir else jdkDir).drop
        jdksDir.length with
    | [b] => if b ∈ vmbuildChoices then some b else none
    | _ => none
  else none

/-- relativeVmLibDirInJdk() (lines 432-438), parameterized by mx.get_os()
and mx.get_arch(). -/
def relativeVmLibDirInJdk (mxos arch : String) : List String :=
  if mxos = "darwin" then ["jre", "lib"]
  else if mxos = "windows" ∨ mxos = "cygwin" then ["jre", "bin"]
  else ["jre", "lib", arch]

/-- vmLibDirInJdk(jdkDir) (lines 440-445). -/
def vmLibDirInJdk (mxos arch : String) (jdkDir : List String) : List String :=
  jdkDir ++ relativeVmLibDirInJdk mxos arch

/-- getVmCfgInJdk(jdkDir, jvmCfgFile='jvm.cfg') (lines 458-465).  Note the
windows/cygwin branch uses jre/lib/<arch>, not vmLibDirInJdk. -/
def getVmCfgInJdk (mxos arch : String) (jdkDir : List String) (jvmCfgFile : String) :
    List String :=
  if mxos = "windows" ∨ mxos = "cygwin" then jdkDir ++ ["jre", "lib", arch, jvmCfgFile]
  else vmLibDirInJdk mxos arch jdkDir ++ [jvmCfgFile]

/-- _hs_deploy_map (lines 178-187) of HotSpotVMJDKDeployedDist.deploy:
archive entry name to target directory relative to the JDK tree.  lib and
libDbg stand for the external mx helpers _lib and _lib_dbg. -/
def hsDeployMap (mxos arch vm : String) (lib libDbg : String → String) :
    List (String × List String) :=
  [("jvmti.h", ["include"]),
   ("sa-jdi.jar", ["lib"]),
   (lib "jvm", relativeVmLibDirInJdk mxos arch ++ [vm]),
   (libDbg "jvm", relativeVmLibDirInJdk mxos arch ++ [vm]),
   (lib "saproc", relativeVmLibDirInJdk mxos arch),
   (libDbg "saproc", relativeVmLibDirInJdk mxos arch),
   (lib "jsig", relativeVmLibDirInJdk mxos arch),
   (libDbg "jsig", relativeVmLibDirInJdk mxos arch)]

/-- HotSpotVMJDKDeployedDist.deploy(jdkDir) (lines 174-194), returned as
the list of tar-extraction actions (entry name, absolute target
directory).  The deploy determines the build kind encoded in the tree's
path; if that differs from the active build _vmbuild it returns without
touching the filesystem (empty action list).  The assertion failure in
_vmbuildFromJdkDir is modelled as none. -/
def hsVmDeploy (mxos arch : String) (lib libDbg : String → String)
    (jdksDir jdkDir : List String) (activeVm activeBuild : String)
    (tarEntries : List String) : Option (List (String × List String)) :=
  match vmbuildFromJdkDir jdksDir jdkDir with
  | none => none
  | some vb =>
    if vb = activeBuild then
      let dm := hsDeployMap mxos arch activeVm lib libDbg
      some ((tarEntries.filter (fun e => (dm.lookup e).isSome)).map
        (fun e => (e, jdkDir ++ ((dm.lookup e).getD []))))
    else some []

/-- A regular file inside a walked source directory: basename and mtime. -/
structure SrcFile where
  name : String
  mtime : Nat
deriving DecidableEq

/-- A forest of directories as os.walk sees them: each entry is a
directory with its name, its regular files, its subdirectory forest and
its sibling entries. -/
inductive DirForest where
  | nil
  | cons (dirName : String) (files : List SrcFile) (children : DirForest)
      (rest : DirForest)

/-- os.walk as used in HotSpotBuildTask.needsBuild (lines 967-972):
top-down walk listing the files of a directory before descending; when
the walk reaches the directory ex (suite/src/share in the source), the
subdirectory named tools is removed from dirnames and therefore skipped.
Yields (absolute file path, mtime) in walk order. -/
def walkF (ex : List String) : List String → Bool → DirForest →
    List (List String × Nat)
  | _, _, DirForest.nil => []
  | base, skipTools, DirForest.cons nm fs children rest =>
    (if skipTools && nm == "tools" then []
     else
       fs.map (fun f => (base ++ [nm, f.name], f.mtime))
         ++ walkF ex (base ++ [nm]) (base ++ [nm] == ex) children)
    ++ walkF ex base skipTools rest

/-- The newest-output baseline self.newestOutput() (line 966): its path,
whether the path still exists on disk, and its timestamp. -/
structure OutTS where
  path : List String
  onDisk : Bool
  mtime : Nat
deriving DecidableEq

/-- The per-file loop of HotSpotBuildTask.needsBuild (lines 972-979): for
each walked file, only when a baseline object is present (if newestOutput:)
first test whether the baseline path still exists, then whether the file's
mtime is strictly newer than the baseline; otherwise fall through to
(False, None). -/
def needsBuildLoop : List (List String × Nat) → Option OutTS → Bool × Option String
  | [], _ => (false, none)
  | _ :: rest, none => needsBuildLoop rest none
  | (p, mt) :: rest, some o =>
    if o.onDisk = false then
      (true, some (pathStr o.path ++ " does not exist"))
    else if o.mtime < mt then
      (true, some (pathStr p ++ " is newer than " ++ pathStr o.path))
    else needsBuildLoop rest (some o)

/-- The files walked by needsBuild (line 967): the directories src, make
and jvmci/jdk.vm.ci.hotspot/src_gen/hotspot under the suite directory,
excluding src/share/tools. -/
def hsWalkAll (suiteDir : List String) (srcF makeF genF : DirForest) :
    List (List String × Nat) :=
  walkF (suiteDir ++ ["src", "share"]) suiteDir false srcF
    ++ walkF (suiteDir ++ ["src", "share"]) suiteDir false makeF
    ++ walkF (suiteDir ++ ["src", "share"])
        (suiteDir ++ ["jvmci", "jdk.vm.ci.hotspot", "src_gen"]) false genF

/-- HotSpotBuildTask.needsBuild (lines 961-979) after the superclass
check returned (False, _): walk the source directories and run the
per-file staleness loop against the baseline. -/
def needsBuild (suiteDir : List String) (srcF makeF genF : DirForest)
    (newestOutput : Option OutTS) : Bool × Option String :=
  needsBuildLoop (hsWalkAll suiteDir srcF makeF genF) newestOutput

/-- Python str.strip()'s whitespace set. -/
def isSpaceChar (c : Char) : Bool :=
  c = ' ' || c = '\t' || c = '\n' || c = '\r' || c = '\x0b' || c = '\x0c'

/-- str.strip() on the characters of a line (line 583). -/
def trimChars (l : List Char) : List Char :=
  ((l.dropWhile isSpaceChar).reverse.dropWhile isSpaceChar).reverse

/-- str.startswith on character lists. -/
def leadsCh : List Char → List Char → Bool
  | [], _ => true
  | _ :: _, [] => false
  | a :: as, b :: bs => a == b && leadsCh as bs

/-- Python str.split(sep) for a single-character separator: splits at
every occurrence, keeping empty pieces (line 587). -/
def splitChar (c : Char) : List Char → List (List Char)
  | [] => [[]]
  | a :: rest =>
    if a = c then [] :: splitChar c rest
    else
      match splitChar c rest with
      | g :: gs => (a :: g) :: gs
      | [] => [[a]]

/-- p.index(':') followed by the slices p[:idx] and p[idx+1:]
(lines 589-590); none models the ValueError when no colon occurs. -/
def breakAtColon : List Char → Option (List Char × List Char)
  | [] => none
  | a :: rest =>
    if a = ':' then some ([], rest)
    else
      match breakAtColon rest with
      | some (k, v) => some (a :: k, v)
      | none => none

/-- OrderedDict assignment versions[k] = v (line 590): update an existing
key in place, else append, preserving insertion order. -/
def odSet (m : List (List Char × List Char)) (k v : List Char) :
    List (List Char × List Char) :=
  if m.any (fun kv => kv.fst == k) then
    m.map (fun kv => if kv.fst == k then (k, v) else kv)
  else m ++ [(k, v)]

/-- The parse loop over the space-separated pieces of the SOURCE value
(lines 586-590): skip empty pieces, split each remaining piece at its
first colon (none on ValueError), accumulate into the ordered mapping. -/
def parsePairsAux : List (List Char × List Char) → List (List Char) →
    Option (List (List Char × List Char))
  | acc, [] => some acc
  | acc, p :: rest =>
    if p.isEmpty then parsePairsAux acc rest
    else
      match breakAtColon p with
      | none => none
      | some (k, v) => parsePairsAux (odSet acc k v) rest

/-- ' '.join(k + ":" + v for k, v in versions.iteritems()) (line 597). -/
def joinPairs : List (List Char × List Char) → List Char
  | [] => []
  | [kv] => kv.fst ++ [':'] ++ kv.snd
  | kv :: rest => kv.fst ++ [':'] ++ kv.snd ++ [' '] ++ joinPairs rest

/-- The test selecting the SOURCE line (line 584):
timmedLine.startswith('SOURCE="') and timmedLine.endswith('"'). -/
def isSourceLine (line : String) : Bool :=
  leadsCh "SOURCE=\"".toList (trimChars line.toList)
    && ((trimChars line.toList).getLast? == some '\"')

/-- The per-line body of the release-file patch (lines 582-603): on the
SOURCE line, parse the component:revision pairs, set the jvmci entry to
the first 12 characters of the revision (or the literal unknown when no
version control is available), delete any hotspot entry, and emit
SOURCE=" pairs" with a single leading space; any parse failure, and every
other line, reproduces the original line unchanged. -/
def patchSourceLine (rev : Option String) (line : String) : String :=
  if isSourceLine line then
    match parsePairsAux [] (splitChar ' ' (((trimChars line.toList).drop 8).dropLast)) with
    | none => line
    | some versions =>
      String.mk ("SOURCE=\" ".toList
        ++ joinPairs ((odSet versions "jvmci".toList
              (match rev with
               | some r => r.toList.take 12
               | none => "unknown".toList)).filter
            (fun kv => kv.fst != "hotspot".toList))
        ++ ['\"'])
  else line

/-- The release-file rewrite loop (lines 581-603): every line is written
back through patchSourceLine. -/
def patchReleaseFile (rev : Option String) (lines : List String) : List String :=
  lines.map (patchSourceLine rev)

/-- The process-wide VM selection (_vm, _vmbuild, _jvmciMode mode name;
lines 68, 95, 87). -/
structure Sel where
  vm : String
  vmbuild : String
  jvmciMode : String
deriving DecidableEq

/-- Programs whose selection effects are exactly those of the source:
external actions read the selection and may raise (act returning false),
sequencing propagates an exception past the rest of the block, and the
two context managers VM (lines 273-302) and JVMCIMode (lines 70-82)
scope their overrides. -/
inductive ScopedProg where
  | act (f : Sel → Bool)
  | seq (p q : ScopedProg)
  | withVM (vm build : Option String) (body : ScopedProg)
  | withMode (m : String) (body : ScopedProg)

/-- Executes a ScopedProg, returning the final selection and whether the
program completed without an exception.  withVM mirrors VM.__init__ /
__enter__ / __exit__: the new vm and build default to the current ones,
vm='jvmci' is the deprecated alias for server plus JVMCIMode('jit'); on
exit _vm and _vmbuild are restored from the values saved on entry, and
_jvmciMode is restored only when the alias installed a mode.  withMode
mirrors JVMCIMode.__enter__/__exit__.  Both run their exit actions also
when the body raised. -/
def execP : ScopedProg → Sel → Sel × Bool
  | ScopedProg.act f, s => (s, f s)
  | ScopedProg.seq p q, s =>
    if (execP p s).snd then execP q (execP p s).fst else execP p s
  | ScopedProg.withVM v b body, s =>
    (⟨s.vm, s.vmbuild,
      if v = some "jvmci" then s.jvmciMode
      else (execP body ⟨(if v = some "jvmci" then "server" else v.getD s.vm),
        b.getD s.vmbuild,
        (if v = some "jvmci" then "jit" else s.jvmciMode)⟩).fst.jvmciMode⟩,
     (execP body ⟨(if v = some "jvmci" then "server" else v.getD s.vm),
        b.getD s.vmbuild,
        (if v = some "jvmci" then "jit" else s.jvmciMode)⟩).snd)
  | ScopedProg.withMode m body, s =>
    (⟨(execP body ⟨s.vm, s.vmbuild, m⟩).fst.vm,
      (execP body ⟨s.vm, s.vmbuild, m⟩).fst.vmbuild,
      s.jvmciMode⟩,
     (execP body ⟨s.vm, s.vmbuild, m⟩).snd)

/-- The bootstrap JDK as the creation path of get_jvmci_jdk_dir sees a
fresh copy of it: the jvm.cfg lines at getVmCfgInJdk (none when the file
is missing), the VM subdirectories of its VM library directory (name and
abstract content), and the loose files of that directory. -/
structure BootJdk where
  jvmCfg : Option (List String)
  vmDirs : List (String × Nat)
  libFiles : List (String × Nat)
deriving DecidableEq

/-- One JDK installation tree, at the granularity the creation path of
get_jvmci_jdk_dir touches it. -/
structure JdkTreeFS where
  jvmCfgLines : List String
  vmDirs : List (String × Nat)
  libFiles : List (String × Nat)
deriving DecidableEq

/-- The creation path of get_jvmci_jdk_dir with create=True
(lines 517-558): a no-op when the tree already exists; otherwise copy the
bootstrap JDK, abort when its jvm.cfg is missing, append -original KNOWN
to the jvm.cfg lines, move the default server VM directory aside under
the name original (shutil.move fails when the source is missing or the
destination exists), and best-effort install the hsdis disassembler
library (hsdisLib is none when the download failed or was skipped). -/
def createJdkTree (boot : BootJdk) (hsdisLib : Option Nat) (s : Option JdkTreeFS) :
    Except String (Option JdkTreeFS) :=
  match s with
  | some t => Except.ok (some t)
  | none =>
    match boot.jvmCfg with
    | none => Except.error "jvm.cfg does not exist"
    | some cfgLines =>
      if boot.vmDirs.any (fun d => d.fst == "server") then
        if boot.vmDirs.any (fun d => d.fst == "original") then
          Except.error "destination path original already exists"
        else
          Except.ok (some
            ⟨cfgLines ++ ["-original KNOWN"],
             boot.vmDirs.map (fun d => if d.fst = "server" then ("original", d.snd) else d),
             match hsdisLib with
             | some c => boot.libFiles ++ [("hsdis", c)]
             | none => boot.libFiles⟩)
      else Except.error "server VM directory does not exist"

/-- Number of -original KNOWN lines in a jvm.cfg. -/
def countOriginalKnown (ls : List String) : Nat :=
  (ls.filter (fun l => l == "-original KNOWN")).length

/-- The shutil.copytree invocation of the creation path (lines 521-526):
when the new tree path ends with /Contents/Home both roots are stripped
two components and copytree is called with symlinks=True; otherwise
copytree is called without the symlinks argument (its default False
follows symlinks).  Returned as (source, destination, symlinks flag). -/
def copytreeInvocation (srcJdk jdkDir : List String) :
    List String × List String × Bool :=
  if endsContentsHome jdkDir = true then
    (dropLast2 srcJdk, dropLast2 jdkDir, true)
  else (srcJdk, jdkDir, false)

/-- The states the deployment target path dstLib can be in before the
symlink branch of copyToJdk runs: absent, a regular file (with abstract
content), a symlink resolving to the source, or a symlink to some other
path which either exists (targetOnDisk) or dangles. -/
inductive DstState where
  | absent
  | regFile (content : Nat)
  | linkToSrc
  | linkOther (targetOnDisk : Bool)
deriving DecidableEq

/-- os.path.islink(dstLib) (line 626). -/
def dstIsLink : DstState → Bool
  | DstState.linkToSrc => true
  | DstState.linkOther _ => true
  | _ => false

/-- os.path.realpath(dstLib) == src (line 626): true exactly for a link
resolving to the source (a regular file or absent path resolves to
itself, which differs from the source path). -/
def dstRealpathIsSrc : DstState → Bool
  | DstState.linkToSrc => true
  | _ => false

/-- os.path.exists(dstLib) (line 627): follows symlinks, so a dangling
link does not exist; the source itself exists (the caller only deploys
distributions whose path exists). -/
def dstOnDisk : DstState → Bool
  | DstState.absent => false
  | DstState.regFile _ => true
  | DstState.linkToSrc => true
  | DstState.linkOther te => te

/-- The symlink branch of copyToJdk (lines 622-629): when the target is
not already a link resolving to the source, remove it if os.path.exists
says it exists, then os.symlink(src, dstLib) — which raises EEXIST when
the path is still occupied (the dangling-link case, which the exists
check skipped). -/
def copyToJdkSymlink (d : DstState) : Except String DstState :=
  if !(dstIsLink d) || !(dstRealpathIsSrc d) then
    match (if dstOnDisk d then DstState.absent else d) with
    | DstState.absent => Except.ok DstState.linkToSrc
    | _ => Except.error "os.symlink: File exists"
  else Except.ok d

/-- isVMSupported(vm) (lines 210-214): the client VM is unsupported
exactly when platform.mac_ver()[0] is non-empty (the Mac java launcher
translates -client to -server). -/
def isVMSupported (vm : String) (macVer : String) : Bool :=
  if "client" = vm ∧ macVer.length ≠ 0 then false else true

/-- JVMCI8JDKConfig.run_java (lines 1456-1475), reduced to its selection
logic: the vm defaults to the active one, an unsupported vm aborts before
anything runs, otherwise the command line is
prefix + [java] + ['-' + vm] + jvmci mode args + args. -/
def runJavaCmd (vmArg : Option String) (activeVm macVer : String)
    (pfx : List String) (javaExe : String) (modeArgs args : List String) :
    Except String (List String) :=
  if isVMSupported (vmArg.getD activeVm) macVer = false then
    Except.error ("The " ++ vmArg.getD activeVm ++ " is not supported on this platform")
  else
    Except.ok (pfx ++ [javaExe] ++ ["-" ++ vmArg.getD activeVm] ++ modeArgs ++ args)

/-- With no baseline object the guard of the per-file loop is never
taken, so the loop falls through to (False, None). -/
theorem needsBuildLoop_none (fs : List (List String × Nat)) :
    needsBuildLoop fs none = (false, none) := by
  induction fs with
  | nil => rfl
  | cons a rest ih => exact ih

/-- If the baseline exists and no walked file is strictly newer, the loop
reports no rebuild. -/
theorem needsBuildLoop_all_le (o : OutTS) (ho : o.onDisk = true) :
    ∀ fs : List (List String × Nat), (∀ pm ∈ fs, pm.snd ≤ o.mtime) →
      needsBuildLoop fs (some o) = (false, none) := by
  intro fs
  induction fs with
  | nil => intro _; rfl
  | cons a rest ih =>
    intro h
    obtain ⟨p, mt⟩ := a
    have ha : mt ≤ o.mtime := h (p, mt) (List.mem_cons_self _ _)
    have hrest : ∀ pm ∈ rest, pm.snd ≤ o.mtime := fun pm hm => h pm (List.mem_cons_of_mem _ hm)
    simp only [needsBuildLoop]
    rw [if_neg (show ¬o.onDisk = false by simp [ho]), if_neg (not_lt.mpr ha)]
    exact ih hrest

/-- If the baseline exists and some walked file is strictly newer, the
loop reports a rebuild. -/
theorem needsBuildLoop_newer (o : OutTS) (ho : o.onDisk = true) :
    ∀ fs : List (List String × Nat), (∃ pm ∈ fs, o.mtime < pm.snd) →
      (needsBuildLoop fs (some o)).fst = true := by
  intro fs
  induction fs with
  | nil =>
    rintro ⟨pm, hm, _⟩
    simp at hm
  | cons a rest ih =>
    rintro ⟨pm, hm, hlt⟩
    obtain ⟨p, mt⟩ := a
    simp only [needsBuildLoop]
    rw [if_neg (show ¬o.onDisk = false by simp [ho])]
    by_cases hc : o.mtime < mt
    · rw [if_pos hc]
    · rw [if_neg hc]
      apply ih
      rcases List.mem_cons.mp hm with heq | hmem
      · subst heq
        exact absurd hlt hc
      · exact ⟨pm, hmem, hlt⟩

/-- As soon as one file is walked, a missing baseline path is reported. -/
theorem needsBuildLoop_missingOut (o : OutTS) (ho : o.onDisk = false)
    (p : List String) (mt : Nat) (rest : List (List String × Nat)) :
    (needsBuildLoop ((p, mt) :: rest) (some o)).fst = true := by
  simp only [needsBuildLoop]
  rw [if_pos ho]

/-- C1 (counterexample): with a walked source file present but no
baseline output object (newestOutput is None), needsBuild reports False —
it does not report "needs rebuild" as the claim states. -/
theorem needsBuild_no_baseline_cex :
    (needsBuild ["suite"]
      (DirForest.cons "src" [⟨"hotspot.cpp", 100⟩] DirForest.nil DirForest.nil)
      DirForest.nil DirForest.nil none).fst = false := by
  decide

/-- C1 (amended): when no baseline output object is known (newestOutput
is None), needsBuild skips every per-file comparison (the `if
newestOutput:` guard is never taken) and returns (False, None) — no
rebuild is reported. -/
theorem needsBuild_no_baseline (sd : List String) (srcF makeF genF : DirForest) :
    needsBuild sd srcF makeF genF none = (false, none) :=
  needsBuildLoop_none _

/-- C2 (counterexample): with a known baseline object whose path no
longer exists on disk and source directories containing no files,
needsBuild returns (False, None) — not True as the claim states for the
missing-baseline case regardless of walked files. -/
theorem needsBuild_missing_baseline_empty_cex :
    needsBuild ["suite"] (DirForest.cons "src" [] DirForest.nil DirForest.nil)
      (DirForest.cons "make" [] DirForest.nil DirForest.nil) DirForest.nil
      (some ⟨["out", "libjvm.so"], false, 5⟩) = (false, none) := by
  decide

/-- C2 (amended): with a known baseline: if some walked source file is
strictly newer than the baseline, needsBuild returns True; if every
walked file's mtime is at most the baseline time and the baseline path
exists, it returns (False, None); and if the baseline path no longer
exists it returns True provided at least one source file is walked (with
no walked files it returns False). -/
theorem needsBuild_staleness (sd : List String) (srcF makeF genF : DirForest)
    (o : OutTS) :
    (o.onDisk = true → (∃ pm ∈ hsWalkAll sd srcF makeF genF, o.mtime < pm.snd) →
      (needsBuild sd srcF makeF genF (some o)).fst = true)
    ∧ (o.onDisk = true → (∀ pm ∈ hsWalkAll sd srcF makeF genF, pm.snd ≤ o.mtime) →
      needsBuild sd srcF makeF genF (some o) = (false, none))
    ∧ (o.onDisk = false → hsWalkAll sd srcF makeF genF ≠ [] →
      (needsBuild sd srcF makeF genF (some o)).fst = true) := by
  refine ⟨fun ho hex => needsBuildLoop_newer o ho _ hex,
    fun ho hall => needsBuildLoop_all_le o ho _ hall,
    fun ho hne => ?_⟩
  unfold needsBuild
  cases hfs : hsWalkAll sd srcF makeF genF with
  | nil => exact absurd hfs hne
  | cons a rest =>
    obtain ⟨p, mt⟩ := a
    exact needsBuildLoop_missingOut o ho p mt rest

/-- C2 (witness): the three parts of needsBuild_staleness at concrete
inputs: a source file at mtime 10 against an existing baseline at 5 means
rebuild; the same file against an existing baseline at 20 means no
rebuild; and a missing baseline with one walked file means rebuild. -/
theorem needsBuild_staleness_witness :
    (needsBuild ["suite"]
      (DirForest.cons "src" [⟨"a.cpp", 10⟩] DirForest.nil DirForest.nil)
      DirForest.nil DirForest.nil (some ⟨["out"], true, 5⟩)).fst = true
    ∧ needsBuild ["suite"]
      (DirForest.cons "src" [⟨"a.cpp", 10⟩] DirForest.nil DirForest.nil)
      DirForest.nil DirForest.nil (some ⟨["out"], true, 20⟩) = (false, none)
    ∧ (needsBuild ["suite"]
      (DirForest.cons "src" [⟨"a.cpp", 10⟩] DirForest.nil DirForest.nil)
      DirForest.nil DirForest.nil (some ⟨["out"], false, 0⟩)).fst = true :=
  ⟨(needsBuild_staleness _ _ _ _ _).1 rfl (by decide),
   (needsBuild_staleness _ _ _ _ _).2.1 rfl (by decide),
   (needsBuild_staleness _ _ _ _ _).2.2 rfl (by decide)⟩

/-- A path always starts with itself as a component prefix. -/
theorem leadsWith_append (l r : List String) : leadsWith l (l ++ r) = true := by
  induction l with
  | nil => rfl
  | cons a as ih => simp [leadsWith, ih]

/-- Any path ending in the two components Contents, Home passes the
endswith('/Contents/Home') test. -/
theorem endsContentsHome_append_CH (m : List String) :
    endsContentsHome (m ++ ["Contents", "Home"]) = true := by
  unfold endsContentsHome
  rw [(by simp : (m ++ ["Contents", "Home"]).reverse
      = "Home" :: "Contents" :: m.reverse)]
  rfl

/-- A path whose final component is not Home fails the
endswith('/Contents/Home') test. -/
theorem endsContentsHome_append_single (l : List String) (b : String)
    (hb : b ≠ "Home") : endsContentsHome (l ++ [b]) = false := by
  unfold endsContentsHome
  rw [(by simp : (l ++ [b]).reverse = b :: l.reverse)]
  cases hrev : l.reverse with
  | nil => rfl
  | cons c r =>
    have hb2 : (b == "Home") = false := by
      simp [hb]
    simp [hb2]

/-- Stripping /Contents/Home from a path built as root ++ [Contents, Home]
gives back root. -/
theorem dropLast2_append_pair (l : List String) (x y : String) :
    dropLast2 (l ++ [x, y]) = l := by
  unfold dropLast2
  rw [(by simp : (l ++ [x, y]).length - 2 = l.length),
    (by simp : l ++ [x, y] = l ++ [x] ++ [y])]
  rw [(by simp : l ++ [x] ++ [y] = l ++ ([x] ++ [y]))]
  simp [List.take_left]

/-- _vmbuildFromJdkDir inverts _jdkDir: the build kind encoded in a JDK
tree path laid out by _jdkDir is recovered, on both the Mac bundle layout
and the flat layout. -/
theorem vmbuildFromJdkDir_mkJdkDir (jdks : List String) (b : String) (mac : Bool)
    (hb : b ∈ vmbuildChoices) :
    vmbuildFromJdkDir jdks (mkJdkDir jdks b mac) = some b := by
  have hbne : b ≠ "Home" := by
    intro he
    subst he
    simp [vmbuildChoices] at hb
  cases mac with
  | true =>
    have h2 : endsContentsHome (jdks ++ [b, "Contents", "Home"]) = true := by
      rw [(by simp : jdks ++ [b, "Contents", "Home"]
          = (jdks ++ [b]) ++ ["Contents", "Home"])]
      exact endsContentsHome_append_CH (jdks ++ [b])
    have h3 : dropLast2 (jdks ++ [b, "Contents", "Home"]) = jdks ++ [b] := by
      rw [(by simp : jdks ++ [b, "Contents", "Home"]
          = (jdks ++ [b]) ++ ["Contents", "Home"])]
      exact dropLast2_append_pair (jdks ++ [b]) "Contents" "Home"
    have h4 : (jdks ++ [b]).drop jdks.length = [b] := by
      simp [List.drop_left]
    simp [mkJdkDir, vmbuildFromJdkDir, leadsWith_append, h2, h3, h4, hb]
  | false =>
    have h2 : endsContentsHome (jdks ++ [b]) = false :=
      endsContentsHome_append_single jdks b hbne
    have h4 : (jdks ++ [b]).drop jdks.length = [b] := by
      simp [List.drop_left]
    simp [mkJdkDir, vmbuildFromJdkDir, leadsWith_append, h2, h4, hb]

/-- C3: for distinct build kinds B1 and B2, deploying the native HotSpot
variant-archive while B1 is active into a JDK tree whose path encodes B2
performs no tar extraction at all: the deploy returns with an empty
action list, leaving the tree untouched. -/
theorem hsVmDeploy_skips_other_build (mxos arch : String)
    (lib libDbg : String → String) (jdksDir : List String) (b1 b2 : String)
    (mac : Bool) (activeVm : String) (entries : List String)
    (hmem : b2 ∈ vmbuildChoices) (hne : b1 ≠ b2) :
    hsVmDeploy mxos arch lib libDbg jdksDir (mkJdkDir jdksDir b2 mac) activeVm b1
      entries = some [] := by
  unfold hsVmDeploy
  rw [vmbuildFromJdkDir_mkJdkDir jdksDir b2 mac hmem]
  simp [Ne.symm hne]

/-- C3 (witness): deploying the fastdebug-encoded tree while product is
active extracts nothing, at concrete inputs on linux/amd64. -/
theorem hsVmDeploy_skips_other_build_witness :
    hsVmDeploy "linux" "amd64" (fun s => "lib" ++ s ++ ".so")
      (fun s => "lib" ++ s ++ ".debuginfo") ["home", "jdks"]
      (mkJdkDir ["home", "jdks"] "fastdebug" false) "server" "product"
      ["libjvm.so", "jvmti.h"] = some [] :=
  hsVmDeploy_skips_other_build "linux" "amd64" (fun s => "lib" ++ s ++ ".so")
    (fun s => "lib" ++ s ++ ".debuginfo") ["home", "jdks"] "product" "fastdebug"
    false "server" ["libjvm.so", "jvmti.h"] (by decide) (by decide)

/-- Lines that do not look like a SOURCE line are mapped to themselves by
the patch. -/
theorem patchSourceLine_map_id (rev : Option String) (xs : List String)
    (h : ∀ l ∈ xs, isSourceLine l = false) :
    xs.map (patchSourceLine rev) = xs := by
  induction xs with
  | nil => rfl
  | cons a t ih =>
    simp only [List.map_cons]
    rw [(by simp [patchSourceLine, h a (List.mem_cons_self _ _)] :
        patchSourceLine rev a = a)]
    rw [ih (fun l hl => h l (List.mem_cons_of_mem _ hl))]

/-- C4: patching a release file whose SOURCE line is
SOURCE="hotspot:abc123 openjdk:def456" with revision xyz789 rewrites
that line to SOURCE=" openjdk:def456 jvmci:xyz789": the hotspot entry is
removed, a jvmci entry with the revision (or the literal unknown when
version control is unavailable) is inserted preserving pair order, a
single space precedes the first pair, and every other (non-SOURCE) line
is written back unchanged. -/
theorem patchReleaseFile_source_line :
    patchSourceLine (some "xyz789") "SOURCE=\"hotspot:abc123 openjdk:def456\""
      = "SOURCE=\" openjdk:def456 jvmci:xyz789\""
    ∧ patchSourceLine none "SOURCE=\"hotspot:abc123 openjdk:def456\""
      = "SOURCE=\" openjdk:def456 jvmci:unknown\""
    ∧ (∀ (rev : Option String) (l : String), isSourceLine l = false →
        patchSourceLine rev l = l)
    ∧ (∀ (rev : Option String) (pre post : List String),
        (∀ l ∈ pre, isSourceLine l = false) →
        (∀ l ∈ post, isSourceLine l = false) →
        patchReleaseFile rev
          (pre ++ ["SOURCE=\"hotspot:abc123 openjdk:def456\""] ++ post)
          = pre ++ [patchSourceLine rev "SOURCE=\"hotspot:abc123 openjdk:def456\""]
            ++ post) := by
  refine ⟨by decide, by decide, fun rev l h => by simp [patchSourceLine, h],
    fun rev pre post hpre hpost => ?_⟩
  simp only [patchReleaseFile, List.map_append, List.map_cons, List.map_nil]
  rw [patchSourceLine_map_id rev pre hpre, patchSourceLine_map_id rev post hpost]

/-- C4 (witness): a two-line release file at concrete inputs; the
JAVA_VERSION line is byte-identical, the SOURCE line is rewritten. -/
theorem patchReleaseFile_source_line_witness :
    patchReleaseFile (some "xyz789")
        ["JAVA_VERSION=\"1.8.0_141\"", "SOURCE=\"hotspot:abc123 openjdk:def456\""]
      = ["JAVA_VERSION=\"1.8.0_141\"", "SOURCE=\" openjdk:def456 jvmci:xyz789\""] := by
  have h := patchReleaseFile_source_line
  have h4 := h.2.2.2 (some "xyz789") ["JAVA_VERSION=\"1.8.0_141\""] []
    (by decide) (by decide)
  simpa [h.1] using h4

/-- Every well-nested program leaves the process-wide selection exactly
as it found it, whether or not it raised: act does not touch the
selection, seq propagates, and both context managers run their restoring
exit on every path. -/
theorem execP_fst (p : ScopedProg) (s : Sel) : (execP p s).fst = s := by
  induction p generalizing s with
  | act f => rfl
  | seq p q ihp ihq =>
    by_cases h : (execP p s).snd <;> simp [execP, h, ihp, ihq]
  | withVM v b body ih =>
    by_cases h : v = some "jvmci" <;> simp [execP, h, ih]
  | withMode m body ih => simp [execP, ih]

/-- C5: entering a scoped VM-selection override installs the new
(vm, buildKind, jvmciMode) triple as the process-wide state (third
conjunct: the body observes exactly the new triple), and on every scope
exit — the body may be any program, including one that raises — exactly
the previous triple is restored; nested scopes are just nested withVM /
withMode programs and compose by the same statement. -/
theorem scoped_vm_restores (v b m : String) (body : ScopedProg) (s : Sel)
    (f : Sel → Bool) :
    (execP (ScopedProg.withVM (some v) (some b) body) s).fst = s
    ∧ (execP (ScopedProg.withMode m body) s).fst = s
    ∧ (v ≠ "jvmci" →
        (execP (ScopedProg.withVM (some v) (some b) (ScopedProg.act f)) s).snd
          = f ⟨v, b, s.jvmciMode⟩) := by
  refine ⟨execP_fst _ _, execP_fst _ _, fun hv => ?_⟩
  have hv2 : ¬(some v = some "jvmci") := by simpa using hv
  simp [execP, hv2]

/-- C5 (witness): a fastdebug override from (server, product, hosted):
the body that raises still gets the previous triple restored, and a body
observing the build kind sees fastdebug installed. -/
theorem scoped_vm_restores_witness :
    (execP (ScopedProg.withVM (some "server") (some "fastdebug")
        (ScopedProg.act (fun _ => false))) ⟨"server", "product", "hosted"⟩).fst
      = ⟨"server", "product", "hosted"⟩
    ∧ (execP (ScopedProg.withVM (some "server") (some "fastdebug")
        (ScopedProg.act (fun t => t.vmbuild == "fastdebug")))
        ⟨"server", "product", "hosted"⟩).snd
      = (fun t : Sel => t.vmbuild == "fastdebug") ⟨"server", "fastdebug", "hosted"⟩ :=
  ⟨(scoped_vm_restores "server" "fastdebug" "jit" (ScopedProg.act (fun _ => false))
      ⟨"server", "product", "hosted"⟩ (fun _ => false)).1,
   (scoped_vm_restores "server" "fastdebug" "jit" (ScopedProg.act (fun _ => false))
      ⟨"server", "product", "hosted"⟩ (fun t => t.vmbuild == "fastdebug")).2.2
     (by decide)⟩

/-- Renaming the server VM directory to original preserves the mapped
content: looking up original after the move finds exactly what server
held before, provided no original directory pre-existed. -/
theorem lookup_rename_server (ds : List (String × Nat)) :
    ds.any (fun d => d.fst == "original") = false →
    (ds.map (fun d => if d.fst = "server" then ("original", d.snd) else d)).lookup
        "original"
      = ds.lookup "server" := by
  induction ds with
  | nil => intro _; rfl
  | cons d t ih =>
    intro hno
    simp only [List.any_cons, Bool.or_eq_false_iff] at hno
    obtain ⟨hd, ht⟩ := hno
    obtain ⟨k, v⟩ := d
    have hk2 : k ≠ "original" := by
      intro he
      rw [he] at hd
      simp at hd
    by_cases hk : k = "server"
    · subst hk
      simp [List.lookup]
    · have h1 : ("original" == k) = false := by
        simp [Ne.symm hk2]
      have h2 : ("server" == k) = false := by
        simp [Ne.symm hk]
      rw [List.map_cons, if_neg hk]
      simp only [List.lookup, h1, h2]
      exact ih ht

/-- Inversion of a successful first creation: the bootstrap had a server
VM directory and no original one, and the created tree is exactly the
bootstrap copy with -original KNOWN appended to jvm.cfg and server moved
to original. -/
theorem createJdkTree_ok_inversion (boot : BootJdk) (h1 : Option Nat)
    (t1 : JdkTreeFS) (cfg : List String) (hcfg : boot.jvmCfg = some cfg)
    (hcreate : createJdkTree boot h1 none = Except.ok (some t1)) :
    boot.vmDirs.any (fun d => d.fst == "original") = false
    ∧ t1.jvmCfgLines = cfg ++ ["-original KNOWN"]
    ∧ t1.vmDirs = boot.vmDirs.map
        (fun d => if d.fst = "server" then ("original", d.snd) else d) := by
  simp only [createJdkTree, hcfg] at hcreate
  by_cases hs : boot.vmDirs.any (fun d => d.fst == "server") = true
  case neg =>
    rw [if_neg hs] at hcreate
    exact Except.noConfusion hcreate
  case pos =>
    rw [if_pos hs] at hcreate
    by_cases ho : boot.vmDirs.any (fun d => d.fst == "original") = true
    case pos =>
      rw [if_pos ho] at hcreate
      exact Except.noConfusion hcreate
    case neg =>
      rw [if_neg ho] at hcreate
      simp only [Except.ok.injEq, Option.some.injEq] at hcreate
      subst hcreate
      exact ⟨Bool.not_eq_true _ ▸ ho, rfl, rfl⟩

/-- C6: creating a JDK tree with create=True is idempotent: after a
successful first creation the second call is a no-op returning the tree
unchanged (byte-identical contents, for any disassembler availability on
the second call), the jvm.cfg contains no duplicate -original KNOWN line
(exactly one when the bootstrap had none), and the original VM library
directory holds exactly the bootstrap's server VM content (it is never
overwritten). -/
theorem createJdkTree_idempotent (boot : BootJdk) (h1 h2 : Option Nat)
    (t1 : JdkTreeFS) (cfg : List String)
    (hcreate : createJdkTree boot h1 none = Except.ok (some t1))
    (hcfg : boot.jvmCfg = some cfg) :
    createJdkTree boot h2 (some t1) = Except.ok (some t1)
    ∧ (countOriginalKnown cfg = 0 → countOriginalKnown t1.jvmCfgLines = 1)
    ∧ t1.vmDirs.lookup "original" = boot.vmDirs.lookup "server" := by
  obtain ⟨hno, hcfgl, hdirs⟩ :=
    createJdkTree_ok_inversion boot h1 t1 cfg hcfg hcreate
  refine ⟨rfl, fun h0 => ?_, ?_⟩
  · have h00 : (cfg.filter (fun l => l == "-original KNOWN")).length = 0 := h0
    rw [hcfgl]
    simp [countOriginalKnown, List.filter_append, h00]
  · rw [hdirs]
    exact lookup_rename_server boot.vmDirs hno

/-- C6 (witness): a concrete bootstrap with a server VM and a one-line
jvm.cfg: the second creation call is a no-op on the created tree, the
created jvm.cfg holds one -original KNOWN line, and original holds the
bootstrap's server content. -/
theorem createJdkTree_idempotent_witness :
    createJdkTree ⟨some ["-server KNOWN"], [("server", 7)], []⟩ (some 3)
        (some ⟨["-server KNOWN", "-original KNOWN"], [("original", 7)], [("hsdis", 3)]⟩)
      = Except.ok
        (some ⟨["-server KNOWN", "-original KNOWN"], [("original", 7)], [("hsdis", 3)]⟩)
    ∧ countOriginalKnown ["-server KNOWN", "-original KNOWN"] = 1
    ∧ ([("original", 7)] : List (String × Nat)).lookup "original"
      = ([("server", 7)] : List (String × Nat)).lookup "server" := by
  have h := createJdkTree_idempotent ⟨some ["-server KNOWN"], [("server", 7)], []⟩
    (some 3) (some 3)
    ⟨["-server KNOWN", "-original KNOWN"], [("original", 7)], [("hsdis", 3)]⟩
    ["-server KNOWN"] rfl rfl
  exact ⟨h.1, h.2.1 (by decide), h.2.2⟩

/-- C7 (counterexample): creating a flat (non Contents/Home) JDK tree
calls shutil.copytree without symlinks=True, so symbolic links are
followed, not preserved — contradicting preservation on every supported
platform. -/
theorem copytree_symlinks_cex :
    (copytreeInvocation ["usr", "lib", "jvm", "java8"]
      ["suite", "jdks", "product"]).2.2 = false := by
  decide

/-- C7 (amended): the bootstrap JDK tree copy preserves symbolic links
(copytree with symlinks=True, applied to the bundle roots) exactly when
the new tree's path ends with /Contents/Home (the macOS bundle layout);
on every other layout copytree is invoked with its default, which
follows symlinks. -/
theorem copytree_symlinks_amended (srcJdk jdkDir : List String) :
    ((copytreeInvocation srcJdk jdkDir).2.2 = true
      ↔ endsContentsHome jdkDir = true)
    ∧ (endsContentsHome jdkDir = false →
        copytreeInvocation srcJdk jdkDir = (srcJdk, jdkDir, false)) := by
  unfold copytreeInvocation
  by_cases h : endsContentsHome jdkDir = true <;> simp [h]

/-- C7 (witness): the amended statement at a concrete flat layout. -/
theorem copytree_symlinks_amended_witness :
    copytreeInvocation ["usr", "java"] ["suite", "jdks", "fastdebug"]
      = (["usr", "java"], ["suite", "jdks", "fastdebug"], false) :=
  (copytree_symlinks_amended ["usr", "java"] ["suite", "jdks", "fastdebug"]).2
    (by decide)

/-- C8 (counterexample): on the windows family the jvm.cfg path is under
jre/lib/<arch> while the VM library directory is jre/bin, so
getVmCfgInJdk is not vmLibDirInJdk joined with jvm.cfg there. -/
theorem getVmCfg_windows_cex :
    getVmCfgInJdk "windows" "amd64" ["c", "jdk8"] "jvm.cfg"
      ≠ vmLibDirInJdk "windows" "amd64" ["c", "jdk8"] ++ ["jvm.cfg"] := by
  decide

/-- C8 (amended): on every non-windows-family platform (darwin and the
arch-parameterized rest), the jvm.cfg registry path equals the VM library
directory of the tree joined with the cfg file name. -/
theorem getVmCfg_join_amended (mxos arch : String) (jdkDir : List String)
    (cfgFile : String) (hw : mxos ≠ "windows") (hc : mxos ≠ "cygwin") :
    getVmCfgInJdk mxos arch jdkDir cfgFile
      = vmLibDirInJdk mxos arch jdkDir ++ [cfgFile] := by
  unfold getVmCfgInJdk
  rw [if_neg]
  intro h
  exact h.elim hw hc

/-- C8 (witness): the amended equality at concrete linux inputs. -/
theorem getVmCfg_join_amended_witness :
    getVmCfgInJdk "linux" "amd64" ["opt", "jdk"] "jvm.cfg"
      = vmLibDirInJdk "linux" "amd64" ["opt", "jdk"] ++ ["jvm.cfg"] :=
  getVmCfg_join_amended "linux" "amd64" ["opt", "jdk"] "jvm.cfg"
    (by decide) (by decide)

/-- C9 (counterexample): a pre-existing dangling symlink at the target is
not replaced: os.path.exists follows the link and reports False, the link
is not removed, and os.symlink raises File exists — the install fails
instead of leaving a link to the source. -/
theorem symlink_dangling_cex :
    copyToJdkSymlink (DstState.linkOther false)
      = Except.error "os.symlink: File exists" := rfl

/-- C9 (amended): in symlink mode the install leaves the target as a link
resolving to the source exactly when the pre-existing target is not a
dangling link: an absent target, a regular file, a link to another
existing file and a link already resolving to the source all end as a
link to the source, while a dangling pre-existing link makes os.symlink
raise File exists. -/
theorem symlink_install_amended (d : DstState) :
    copyToJdkSymlink d = Except.ok DstState.linkToSrc
      ↔ d ≠ DstState.linkOther false := by
  cases d with
  | absent => simp [copyToJdkSymlink, dstIsLink, dstRealpathIsSrc, dstOnDisk]
  | regFile c => simp [copyToJdkSymlink, dstIsLink, dstRealpathIsSrc, dstOnDisk]
  | linkToSrc => simp [copyToJdkSymlink, dstIsLink, dstRealpathIsSrc, dstOnDisk]
  | linkOther te =>
    cases te <;> simp [copyToJdkSymlink, dstIsLink, dstRealpathIsSrc, dstOnDisk]

/-- C10: isVMSupported returns False exactly for the client VM on macOS
(detected as platform.mac_ver()[0] being non-empty), and run_java with an
unsupported VM aborts instead of substituting a VM. -/
theorem isVMSupported_spec (vm macVer : String) :
    (isVMSupported vm macVer = false ↔ vm = "client" ∧ macVer ≠ "")
    ∧ (∀ (activeVm javaExe : String) (pfx modeArgs args : List String),
        isVMSupported vm macVer = false →
        runJavaCmd (some vm) activeVm macVer pfx javaExe modeArgs args
          = Except.error ("The " ++ vm ++ " is not supported on this platform")) := by
  have hlen : macVer.length ≠ 0 ↔ macVer ≠ "" := by
    constructor
    · intro h he
      subst he
      exact h rfl
    · intro h hl
      apply h
      cases macVer with
      | mk data =>
        cases data with
        | nil => rfl
        | cons c cs => simp [String.length] at hl
  constructor
  · by_cases h : "client" = vm ∧ macVer.length ≠ 0
    · simp only [isVMSupported, if_pos h]
      constructor
      · intro _
        exact ⟨h.1.symm, hlen.mp h.2⟩
      · intro _
        trivial
    · simp only [isVMSupported, if_neg h]
      constructor
      · intro ht
        exact Bool.noConfusion ht
      · rintro ⟨hv, hm⟩
        exact absurd ⟨hv.symm, hlen.mpr hm⟩ h
  · intro activeVm javaExe pfx modeArgs args hf
    simp [runJavaCmd, hf]

/-- C10 (witness): the client VM with a non-empty mac_ver is unsupported
and run_java aborts with the message, at concrete inputs. -/
theorem isVMSupported_spec_witness :
    isVMSupported "client" "10.11.6" = false
    ∧ runJavaCmd (some "client") "server" "10.11.6" [] "java" [] []
      = Except.error ("The " ++ "client" ++ " is not supported on this platform") := by
  have h := isVMSupported_spec "client" "10.11.6"
  have hf : isVMSupported "client" "10.11.6" = false := h.1.mpr ⟨rfl, by decide⟩
  exact ⟨hf, h.2 "server" "java" [] [] [] hf⟩
